import Mathlib

/-
Verification of the capture-describe-speak cycle of src/index.tsx.

The program is a single React component.  Its reactive state
(isLoading, description, error) is embedded as `AppState`.  The async
function `captureAndDescribe` is embedded as a pure function producing a
trace of primitive actions (state mutations, speak invocations, the
inference call); the final state is obtained by folding the actions over
the starting state.  The environment of one cycle (ref availability,
video readiness, canvas context availability, outcome of the inference
call) is a `CycleEnv` record.

The speech chain `speak` / `speakLocally` is embedded separately: the
synchronous body of `speak` registers a once-listener and starts
playback, and the asynchronous failure notifications (play-promise
rejection, audio error event) are a list of `Signal`s folded over the
attempt state.
-/

namespace SweetTS

/-- Fixed announcement spoken at the start of every cycle (src line 135). -/
def analyzingMsg : String := "Menganalisis..."

/-- Fixed camera-not-ready message (src line 182). -/
def cameraNotReadyMsg : String := "Kamera belum siap. Mohon tunggu sejenak dan coba lagi."

/-- Fixed generic inference-failure message (src line 176). -/
def inferenceFailMsg : String := "Maaf, saya tidak dapat mendeskripsikan gambar. Silakan coba lagi."

/-- The component state relevant to one cycle: the hooks
`isLoading`, `description`, `error` of src lines 7-9. -/
structure AppState where
  isLoading : Bool
  description : String
  error : String
deriving DecidableEq, Repr

/-- Environment of a single cycle: availability of the video/canvas refs,
the video readyState, availability of the canvas 2d context, and the
outcome of the inference call (`some t` = resolves with text t,
`none` = throws). -/
structure CycleEnv where
  videoPresent : Bool
  canvasPresent : Bool
  readyState : Nat
  contextAvailable : Bool
  inference : Option String
deriving DecidableEq, Repr

/-- Primitive observable actions performed by `captureAndDescribe`. -/
inductive Act where
  | setLoading (b : Bool)
  | setDescription (t : String)
  | setError (t : String)
  | speakCall (t : String)
  | inferCall
deriving DecidableEq, Repr

/-- The readiness guard of src line 140:
`video && canvas && video.readyState >= 2`. -/
def cameraReady (env : CycleEnv) : Bool :=
  env.videoPresent && env.canvasPresent && decide (2 ≤ env.readyState)

/-- Trace of actions performed by one invocation of `captureAndDescribe`
(src lines 129-187), given the starting state and the cycle environment. -/
def captureAndDescribeTrace (s : AppState) (env : CycleEnv) : List Act :=
  if s.isLoading then []
  else
    Act.setLoading true :: Act.setDescription "" :: Act.setError "" ::
    Act.speakCall analyzingMsg ::
    (if cameraReady env then
      if env.contextAvailable then
        match env.inference with
        | some t => [Act.inferCall, Act.setDescription t, Act.speakCall t]
        | none => [Act.inferCall, Act.setError inferenceFailMsg,
                   Act.speakCall inferenceFailMsg]
      else []
    else [Act.setError cameraNotReadyMsg, Act.speakCall cameraNotReadyMsg])
    ++ [Act.setLoading false]

/-- Effect of one action on the component state. -/
def applyAct (s : AppState) : Act → AppState
  | .setLoading b => { s with isLoading := b }
  | .setDescription t => { s with description := t }
  | .setError t => { s with error := t }
  | .speakCall _ => s
  | .inferCall => s

/-- Fold a list of actions over a state. -/
def runActs (s : AppState) (acts : List Act) : AppState :=
  acts.foldl applyAct s

/-- State at the end of one invocation of `captureAndDescribe`. -/
def captureAndDescribe (s : AppState) (env : CycleEnv) : AppState :=
  runActs s (captureAndDescribeTrace s env)

/-- Number of Speak invocations with text `t` in a trace. -/
def speakCount (acts : List Act) (t : String) : Nat :=
  acts.count (Act.speakCall t)

/-- Number of inference calls in a trace. -/
def inferCount (acts : List Act) : Nat :=
  acts.count Act.inferCall

/-- The description display area of src line 297: `description || error`
(JavaScript `||`: the empty string is falsy). -/
def displayedText (s : AppState) : String :=
  if s.description = "" then s.error else s.description

/-- C1: while a cycle is in flight (isLoading = true), triggering
`captureAndDescribe` performs no action at all — no inference call, no
speak, no state mutation — and the state is unchanged. -/
theorem inflight_trigger_noop (s : AppState) (env : CycleEnv)
    (h : s.isLoading = true) :
    captureAndDescribeTrace s env = [] ∧ captureAndDescribe s env = s := by
  refine ⟨?_, ?_⟩ <;>
    simp [captureAndDescribe, captureAndDescribeTrace, runActs, h]

/-- Witness for C1 at a concrete in-flight state. -/
theorem inflight_trigger_noop_witness :
    captureAndDescribeTrace ⟨true, "x", ""⟩ ⟨true, true, 2, true, some "y"⟩ = [] ∧
    captureAndDescribe ⟨true, "x", ""⟩ ⟨true, true, 2, true, some "y"⟩ = ⟨true, "x", ""⟩ :=
  inflight_trigger_noop ⟨true, "x", ""⟩ ⟨true, true, 2, true, some "y"⟩ rfl

/-- C2 counterexample: when the inference text equals the fixed analyzing
announcement "Menganalisis...", Speak is invoked with that text twice in
the cycle (once as the announcement, once as the result), not exactly
once as the claim states. -/
theorem success_speak_once_counterexample :
    speakCount
      (captureAndDescribeTrace ⟨false, "", ""⟩ ⟨true, true, 2, true, some analyzingMsg⟩)
      analyzingMsg = 2 := by
  decide

/-- C2 (amended): for every cycle with the camera ready, the 2d context
available and a successful inference with text T, the cycle ends with
description = T and error empty, and — provided T differs from the fixed
analyzing announcement "Menganalisis..." — Speak is invoked with T
exactly once. -/
theorem success_sets_description_speaks_once (s : AppState) (env : CycleEnv)
    (t : String) (hload : s.isLoading = false) (hcam : cameraReady env = true)
    (hctx : env.contextAvailable = true) (hinf : env.inference = some t)
    (ht : t ≠ analyzingMsg) :
    (captureAndDescribe s env).description = t ∧
    (captureAndDescribe s env).error = "" ∧
    speakCount (captureAndDescribeTrace s env) t = 1 := by
  have ht' : ¬(analyzingMsg = t) := fun h => ht h.symm
  refine ⟨?_, ?_, ?_⟩ <;>
    simp [captureAndDescribe, captureAndDescribeTrace, runActs, applyAct,
      speakCount, hload, hcam, hctx, hinf, List.count_cons, List.count_append,
      ht']

/-- Witness for C2 (amended) at the spec's own scenario text. -/
theorem success_sets_description_speaks_once_witness :
    (captureAndDescribe ⟨false, "", ""⟩
        ⟨true, true, 2, true, some "Ada meja di depan Anda"⟩).description =
      "Ada meja di depan Anda" ∧
    (captureAndDescribe ⟨false, "", ""⟩
        ⟨true, true, 2, true, some "Ada meja di depan Anda"⟩).error = "" ∧
    speakCount
      (captureAndDescribeTrace ⟨false, "", ""⟩
        ⟨true, true, 2, true, some "Ada meja di depan Anda"⟩)
      "Ada meja di depan Anda" = 1 :=
  success_sets_description_speaks_once ⟨false, "", ""⟩
    ⟨true, true, 2, true, some "Ada meja di depan Anda"⟩
    "Ada meja di depan Anda" rfl rfl rfl rfl (by decide)

/-- C3: for every cycle in which the inference call fails, the cycle ends
with description empty and error equal to the fixed generic failure
message, Speak is invoked with that message, and the cycle completes
normally (its last action resets the in-flight flag) rather than
propagating the error upward. -/
theorem inference_failure_handled (s : AppState) (env : CycleEnv)
    (hload : s.isLoading = false) (hcam : cameraReady env = true)
    (hctx : env.contextAvailable = true) (hinf : env.inference = none) :
    (captureAndDescribe s env).description = "" ∧
    (captureAndDescribe s env).error = inferenceFailMsg ∧
    speakCount (captureAndDescribeTrace s env) inferenceFailMsg = 1 ∧
    (captureAndDescribeTrace s env).getLast? = some (Act.setLoading false) := by
  have hne : ¬(analyzingMsg = inferenceFailMsg) := by decide
  refine ⟨?_, ?_, ?_, ?_⟩ <;>
    simp [captureAndDescribe, captureAndDescribeTrace, runActs, applyAct,
      speakCount, hload, hcam, hctx, hinf, List.count_cons, List.count_append,
      hne]

/-- Witness for C3 at a concrete failing cycle. -/
theorem inference_failure_handled_witness :
    (captureAndDescribe ⟨false, "", ""⟩ ⟨true, true, 2, true, none⟩).description = "" ∧
    (captureAndDescribe ⟨false, "", ""⟩ ⟨true, true, 2, true, none⟩).error =
      inferenceFailMsg ∧
    speakCount (captureAndDescribeTrace ⟨false, "", ""⟩ ⟨true, true, 2, true, none⟩)
      inferenceFailMsg = 1 ∧
    (captureAndDescribeTrace ⟨false, "", ""⟩
      ⟨true, true, 2, true, none⟩).getLast? = some (Act.setLoading false) :=
  inference_failure_handled ⟨false, "", ""⟩ ⟨true, true, 2, true, none⟩
    rfl rfl rfl rfl

/-- C4: for every cycle triggered while the capture source is not ready,
the cycle ends with description empty and error equal to the fixed
camera-not-ready message, Speak is invoked exactly once with that
message, and no inference call is made. -/
theorem camera_not_ready_handled (s : AppState) (env : CycleEnv)
    (hload : s.isLoading = false) (hcam : cameraReady env = false) :
    (captureAndDescribe s env).description = "" ∧
    (captureAndDescribe s env).error = cameraNotReadyMsg ∧
    speakCount (captureAndDescribeTrace s env) cameraNotReadyMsg = 1 ∧
    inferCount (captureAndDescribeTrace s env) = 0 := by
  have hne : ¬(analyzingMsg = cameraNotReadyMsg) := by decide
  refine ⟨?_, ?_, ?_, ?_⟩ <;>
    simp [captureAndDescribe, captureAndDescribeTrace, runActs, applyAct,
      speakCount, inferCount, hload, hcam, List.count_cons, List.count_append,
      hne]

/-- Witness for C4 with the video element not yet ready. -/
theorem camera_not_ready_handled_witness :
    (captureAndDescribe ⟨false, "", ""⟩ ⟨true, true, 0, true, some "y"⟩).description = "" ∧
    (captureAndDescribe ⟨false, "", ""⟩ ⟨true, true, 0, true, some "y"⟩).error =
      cameraNotReadyMsg ∧
    speakCount (captureAndDescribeTrace ⟨false, "", ""⟩ ⟨true, true, 0, true, some "y"⟩)
      cameraNotReadyMsg = 1 ∧
    inferCount (captureAndDescribeTrace ⟨false, "", ""⟩
      ⟨true, true, 0, true, some "y"⟩) = 0 :=
  camera_not_ready_handled ⟨false, "", ""⟩ ⟨true, true, 0, true, some "y"⟩ rfl rfl

/-- C8: every cycle that passes the in-flight gate begins with exactly
the actions: set in-flight true, clear description, clear error, speak
the analyzing announcement — in that order, before any branch-dependent
action — and its last action on every branch resets in-flight to false,
so the cycle ends with isLoading = false. -/
theorem trace_shape (s : AppState) (env : CycleEnv)
    (hload : s.isLoading = false) :
    ∃ mid, captureAndDescribeTrace s env =
      [Act.setLoading true, Act.setDescription "", Act.setError "",
       Act.speakCall analyzingMsg] ++ (mid ++ [Act.setLoading false]) := by
  simp only [captureAndDescribeTrace, hload, Bool.false_eq_true, if_false]
  exact ⟨_, rfl⟩

theorem cycle_prologue_and_reset (s : AppState) (env : CycleEnv)
    (hload : s.isLoading = false) :
    (captureAndDescribeTrace s env).take 4 =
      [Act.setLoading true, Act.setDescription "", Act.setError "",
       Act.speakCall analyzingMsg] ∧
    (captureAndDescribeTrace s env).getLast? = some (Act.setLoading false) ∧
    (captureAndDescribe s env).isLoading = false := by
  obtain ⟨mid, hmid⟩ := trace_shape s env hload
  refine ⟨?_, ?_, ?_⟩
  · rw [hmid]; rfl
  · rw [hmid, ← List.append_assoc, List.getLast?_concat]
  · unfold captureAndDescribe runActs
    rw [hmid, ← List.append_assoc, List.foldl_append]
    rfl

/-- Witness for C8 at a concrete successful cycle. -/
theorem cycle_prologue_and_reset_witness :
    (captureAndDescribeTrace ⟨false, "", ""⟩ ⟨true, true, 2, true, some "y"⟩).take 4 =
      [Act.setLoading true, Act.setDescription "", Act.setError "",
       Act.speakCall analyzingMsg] ∧
    (captureAndDescribeTrace ⟨false, "", ""⟩
      ⟨true, true, 2, true, some "y"⟩).getLast? = some (Act.setLoading false) ∧
    (captureAndDescribe ⟨false, "", ""⟩
      ⟨true, true, 2, true, some "y"⟩).isLoading = false :=
  cycle_prologue_and_reset ⟨false, "", ""⟩ ⟨true, true, 2, true, some "y"⟩ rfl

/-- C10: if the camera is ready but the canvas 2d context is unavailable,
the cycle ends silently: the whole trace is the prologue followed by the
in-flight reset — no inference call, no description set, no error set,
and no speech beyond the analyzing announcement — and the final state
has in-flight false and both fields empty. -/
theorem context_unavailable_silent (s : AppState) (env : CycleEnv)
    (hload : s.isLoading = false) (hcam : cameraReady env = true)
    (hctx : env.contextAvailable = false) :
    captureAndDescribeTrace s env =
      [Act.setLoading true, Act.setDescription "", Act.setError "",
       Act.speakCall analyzingMsg, Act.setLoading false] ∧
    captureAndDescribe s env = ⟨false, "", ""⟩ := by
  refine ⟨?_, ?_⟩ <;>
    simp [captureAndDescribe, captureAndDescribeTrace, runActs, applyAct,
      hload, hcam, hctx]

/-- Witness for C10 at a concrete context-less cycle. -/
theorem context_unavailable_silent_witness :
    captureAndDescribeTrace ⟨false, "a", "b"⟩ ⟨true, true, 3, false, some "y"⟩ =
      [Act.setLoading true, Act.setDescription "", Act.setError "",
       Act.speakCall analyzingMsg, Act.setLoading false] ∧
    captureAndDescribe ⟨false, "a", "b"⟩ ⟨true, true, 3, false, some "y"⟩ =
      ⟨false, "", ""⟩ :=
  context_unavailable_silent ⟨false, "a", "b"⟩ ⟨true, true, 3, false, some "y"⟩
    rfl rfl rfl

/-- C7: the display area shows exactly one of the two fields: the
description when it is non-empty, otherwise the error — never both. -/
theorem displayed_description_or_error (s : AppState) :
    (s.description ≠ "" ∧ displayedText s = s.description) ∨
    (s.description = "" ∧ displayedText s = s.error) := by
  by_cases h : s.description = "" <;> simp [displayedText, h]

/-- Asynchronous failure notifications that can reach one `speak` attempt
after its synchronous body returns: rejection of the `audio.play()`
promise (src lines 68-74), or an `error` event on the audio element
(listener registered with `once: true` at src line 62). -/
inductive Signal where
  | playRejected
  | errorEvent
deriving DecidableEq, Repr

/-- State of one primary-playback attempt while its failure
notifications are delivered. -/
structure AttemptState where
  listenerActive : Bool
  localTexts : List String
  listenerFires : Nat
deriving DecidableEq, Repr

/-- Observable effects of one `speak` call: direct `speechSynthesis.cancel`
calls (src line 47), `audio.play()` attempts, the texts passed to
`speakLocally`, and how often the error listener fired. -/
structure SpeakResult where
  cancels : Nat
  primaryPlays : Nat
  localTexts : List String
  listenerFires : Nat
deriving DecidableEq, Repr

/-- Delivery of one failure notification, following src lines 56-74:
a play rejection removes the error listener and calls `speakLocally`;
an error event fires the listener only while it is still registered
(`once: true` deregisters it), and the listener calls `speakLocally`. -/
def handleSignal (text : String) (st : AttemptState) : Signal → AttemptState
  | .playRejected =>
      { st with listenerActive := false, localTexts := st.localTexts ++ [text] }
  | .errorEvent =>
      if st.listenerActive then
        { listenerActive := false,
          localTexts := st.localTexts ++ [text],
          listenerFires := st.listenerFires + 1 }
      else st

/-- The `speak` function of src lines 40-75: empty text is a no-op;
without an audio element it falls straight back to `speakLocally`;
otherwise it cancels pending speech, registers the once-listener, starts
playback, and the failure notifications in `signals` are delivered in
order. -/
def speak (text : String) (audioAvailable : Bool) (signals : List Signal) :
    SpeakResult :=
  if text = "" then ⟨0, 0, [], 0⟩
  else if audioAvailable then
    let final := signals.foldl (handleSignal text) ⟨true, [], 0⟩
    ⟨1, 1, final.localTexts, final.listenerFires⟩
  else ⟨1, 0, [text], 0⟩

/-- The guard of `speakLocally` (src lines 19-20): number of local
synthesis utterances produced for the given text. -/
def speakLocally (text : String) : Nat :=
  if text = "" then 0 else 1

theorem fires_bound (text : String) :
    ∀ (ss : List Signal) (st : AttemptState),
      (ss.foldl (handleSignal text) st).listenerFires ≤
        st.listenerFires + (if st.listenerActive then 1 else 0) := by
  intro ss
  induction ss with
  | nil => intro st; exact Nat.le_add_right _ _
  | cons sig rest ih =>
    intro st
    cases sig with
    | playRejected =>
      have h := ih { st with listenerActive := false,
                             localTexts := st.localTexts ++ [text] }
      simp only [List.foldl_cons, handleSignal]
      exact le_trans h (Nat.le_add_right _ _)
    | errorEvent =>
      by_cases ha : st.listenerActive
      · have h := ih { listenerActive := false,
                       localTexts := st.localTexts ++ [text],
                       listenerFires := st.listenerFires + 1 }
        simp only [List.foldl_cons, handleSignal, ha, if_true]
        simpa [ha] using h
      · have h := ih st
        simp only [List.foldl_cons, handleSignal, ha, if_false]
        simpa [ha] using h

/-- C6 counterexample: when the audio error event fires before the play
rejection of the same attempt is processed, `speakLocally` is invoked
twice with the same text — the event consumes the once-listener (first
invocation) and the rejection handler still calls the fallback (second
invocation), so the fallback IS double-invoked for that attempt. -/
theorem fallback_double_invocation_counterexample :
    (speak "halo" true [Signal.errorEvent, Signal.playRejected]).localTexts =
      ["halo", "halo"] := by
  decide

/-- C6 (amended): for every `speak` call with non-empty text, the error
listener fires at most once per attempt; and when the playback failure
is signalled exactly once — a play-promise rejection alone or an audio
error event alone — `speakLocally` is invoked with the identical text
exactly once.  (Only when an error event precedes the rejection of the
same attempt is the fallback invoked twice.) -/
theorem primary_failure_single_fallback (text : String) (ss : List Signal)
    (ht : text ≠ "") :
    (speak text true ss).listenerFires ≤ 1 ∧
    (ss = [Signal.playRejected] ∨ ss = [Signal.errorEvent] →
      (speak text true ss).localTexts = [text]) := by
  constructor
  · have h := fires_bound text ss ⟨true, [], 0⟩
    simpa [speak, ht] using h
  · rintro (rfl | rfl) <;> simp [speak, handleSignal, ht]

/-- Witness for C6 (amended) at a concrete rejected-playback attempt. -/
theorem primary_failure_single_fallback_witness :
    (speak "halo" true [Signal.playRejected]).listenerFires ≤ 1 ∧
    ([Signal.playRejected] = [Signal.playRejected] ∨
       [Signal.playRejected] = [Signal.errorEvent] →
      (speak "halo" true [Signal.playRejected]).localTexts = ["halo"]) :=
  primary_failure_single_fallback "halo" [Signal.playRejected] (by decide)

/-- C5: calling `speak` with the empty string is a complete no-op — no
cancel, no primary playback, no fallback call, no listener activity —
and `speakLocally` with the empty string produces no utterance either. -/
theorem speak_empty_noop (audioAvailable : Bool) (ss : List Signal) :
    speak "" audioAvailable ss = ⟨0, 0, [], 0⟩ ∧ speakLocally "" = 0 :=
  ⟨rfl, rfl⟩

/-- A camera stream track; `live` is false once `track.stop()` ran. -/
structure Track where
  live : Bool
deriving DecidableEq, Repr

/-- `track.stop()` of src line 121. -/
def stopTrack (_t : Track) : Track := ⟨false⟩

/-- Resources held by the mounted component: the camera stream (if one
was acquired), whether speech is playing, and whether the
`onvoiceschanged` callback is registered. -/
structure AppResources where
  stream : Option (List Track)
  speechActive : Bool
  voicesCallbackSet : Bool
deriving DecidableEq, Repr

/-- The unmount cleanup of src lines 117-126: stop every track of the
stream, cancel any playing speech, clear the voice-list callback. -/
def cleanup (r : AppResources) : AppResources :=
  { stream := r.stream.map (List.map stopTrack),
    speechActive := false,
    voicesCallbackSet := false }

/-- Number of still-live tracks of the camera stream. -/
def activeTracks (r : AppResources) : Nat :=
  match r.stream with
  | none => 0
  | some ts => ts.countP (fun t => t.live)

theorem countP_live_map_stop (ts : List Track) :
    ((ts.map stopTrack).countP (fun t => t.live)) = 0 := by
  induction ts with
  | nil => rfl
  | cons a l ih => simp [List.countP_cons, stopTrack, ih]

/-- C9: after the unmount cleanup, zero active tracks remain on the
camera stream, speech is cancelled, and the voice-list-change callback
registration is cleared. -/
theorem cleanup_releases_resources (r : AppResources) :
    activeTracks (cleanup r) = 0 ∧
    (cleanup r).speechActive = false ∧
    (cleanup r).voicesCallbackSet = false := by
  refine ⟨?_, rfl, rfl⟩
  rcases r with ⟨_ | ts, sp, vc⟩
  · rfl
  · simpa [activeTracks, cleanup] using countP_live_map_stop ts

end SweetTS
